import Mathlib

/-!
Verification of the query safety-and-execution pipeline of the ai_sql_agent
repository: the read-only safety validator, the execution wrapper, SQL
extraction, the query log, the conversation reformulator and the
visualization advisor.  Python functions are shallowly embedded as Lean
functions; file-system and database effects are made explicit (store states,
event traces, oracle parameters for the external text-generation service).
-/

/-! ## Character-level helpers (Python `str.strip`, `str.upper`, `\s`, `\w`) -/

/-- The six ASCII characters Python treats as whitespace (`\s`, `str.strip`). -/
def pyWs (c : Char) : Bool :=
  c = ' ' || c = '\t' || c = '\n' || c = '\r' || c = '\x0b' || c = '\x0c'

/-- ASCII uppercasing, as applied by `str.upper` to the SQL text. -/
def asciiUpper (c : Char) : Char :=
  if 'a' ≤ c && c ≤ 'z' then Char.ofNat (c.toNat - 32) else c

/-- ASCII lowercasing, as applied by `str.lower`. -/
def asciiLower (c : Char) : Char :=
  if 'A' ≤ c && c ≤ 'Z' then Char.ofNat (c.toNat + 32) else c

/-- `str.strip()`: drop leading and trailing whitespace. -/
def pyStrip (l : List Char) : List Char :=
  ((l.dropWhile pyWs).reverse.dropWhile pyWs).reverse

/-- `str.upper()` on a character list. -/
def pyUpper (l : List Char) : List Char := l.map asciiUpper

/-- `str.lower()` on a character list. -/
def pyLower (l : List Char) : List Char := l.map asciiLower

/-- `str.strip()` packaged on `String`. -/
def pyStripStr (s : String) : String := String.mk (pyStrip s.toList)

/-- Regex word character `\w` (ASCII, the text is already uppercased). -/
def isWordChar (c : Char) : Bool :=
  ('A' ≤ c && c ≤ 'Z') || ('a' ≤ c && c ≤ 'z') || ('0' ≤ c && c ≤ '9') || c = '_'

/-! ## Safety validator (`src/database.py`, `validate_sql_safety`) -/

/-- The deny-list of `validate_sql_safety`. -/
def forbiddenKeywords : List String :=
  ["UPDATE", "DELETE", "DROP", "ALTER", "INSERT",
   "CREATE", "REPLACE", "TRUNCATE", "GRANT", "REVOKE"]

/-- The allow-list of starting keywords of `validate_sql_safety`. -/
def allowedStarts : List String := ["SELECT", "WITH", "PRAGMA", "EXPLAIN"]

/-- Regex `\b` after a keyword: end of input, or a non-word character. -/
def boundaryOk : List Char → Bool
  | [] => true
  | c :: _ => !isWordChar c

/-- `kwBoundaryAt ks l`: `l` starts with the keyword `ks` followed by a word
boundary (the regex fragment `KEYWORD\b` anchored at the head of `l`). -/
def kwBoundaryAt : List Char → List Char → Bool
  | [], rest => boundaryOk rest
  | _ :: _, [] => false
  | k :: ks, c :: cs => k == c && kwBoundaryAt ks cs

/-- Greedy skip of regex `\s*`. -/
def skipWs : List Char → List Char
  | [] => []
  | c :: cs => if pyWs c then skipWs cs else c :: cs

/-- After a semicolon: `\s*(KW1|...|KW10)\b` anchored at the head of `l`. -/
def matchAfterSemi (l : List Char) : Bool :=
  forbiddenKeywords.any fun kw => kwBoundaryAt kw.toList (skipWs l)

/-- `re.search` of the pattern `;\s*(UPDATE|...|REVOKE)\b` over the text:
true iff the pattern matches at some position. -/
def chainedSearch : List Char → Bool
  | [] => false
  | c :: cs => (c == ';' && matchAfterSemi cs) || chainedSearch cs

/-- The normalized working copy: `query.strip().upper()`. -/
def normalizeQuery (query : String) : List Char := pyUpper (pyStrip query.toList)

/-- Rejection message for a query not starting with an allowed keyword. -/
def onlyReadOnlyMsg : String :=
  "Safety Violation: Only SELECT, WITH, PRAGMA, and EXPLAIN statements are allowed."

/-- Rejection message for a semicolon-chained forbidden keyword. -/
def chainedMsg : String :=
  "Safety Violation: Potentially destructive chained command detected."

/-- `validate_sql_safety` from `src/database.py`: `none` means safe, `some msg`
carries the rejection reason. -/
def validate_sql_safety (query : String) : Option String :=
  if !(allowedStarts.any fun kw => kw.toList.isPrefixOf (normalizeQuery query)) then
    some onlyReadOnlyMsg
  else if chainedSearch (normalizeQuery query) then some chainedMsg
  else none

/-! ### Declarative characterization of the chained-command scan -/

/-- The spec-side reading of step 3 of the validator: somewhere in the text, a
semicolon, optional whitespace, a forbidden keyword, then a word boundary. -/
def hasChainedPattern (l : List Char) : Prop :=
  ∃ pre ws kw post, kw ∈ forbiddenKeywords ∧
    (∀ c ∈ ws, pyWs c = true) ∧
    boundaryOk post = true ∧
    l = pre ++ [';'] ++ ws ++ kw.toList ++ post

theorem kwBoundaryAt_iff (ks : List Char) :
    ∀ l, kwBoundaryAt ks l = true ↔ ∃ post, l = ks ++ post ∧ boundaryOk post = true := by
  induction ks with
  | nil =>
    intro l
    constructor
    · intro h; exact ⟨l, rfl, h⟩
    · rintro ⟨post, rfl, h⟩; simpa [kwBoundaryAt] using h
  | cons k ks ih =>
    intro l
    cases l with
    | nil =>
      simp [kwBoundaryAt]
    | cons c cs =>
      simp only [kwBoundaryAt, Bool.and_eq_true, beq_iff_eq]
      constructor
      · rintro ⟨rfl, h⟩
        obtain ⟨post, rfl, hb⟩ := (ih cs).mp h
        exact ⟨post, rfl, hb⟩
      · rintro ⟨post, heq, hb⟩
        rw [List.cons_append] at heq
        obtain ⟨rfl, rfl⟩ := List.cons.inj heq
        exact ⟨rfl, (ih (ks ++ post)).mpr ⟨post, rfl, hb⟩⟩

theorem skipWs_append (ws l : List Char) (h : ∀ c ∈ ws, pyWs c = true) :
    skipWs (ws ++ l) = skipWs l := by
  induction ws with
  | nil => rfl
  | cons c cs ih =>
    have hc : pyWs c = true := h c (List.mem_cons_self ..)
    simp [skipWs, hc, ih fun d hd => h d (List.mem_cons_of_mem _ hd)]

theorem skipWs_cons_of_not_ws (c : Char) (l : List Char) (h : pyWs c = false) :
    skipWs (c :: l) = c :: l := by
  simp [skipWs, h]

theorem skipWs_decomposition (l : List Char) :
    ∃ ws, (∀ c ∈ ws, pyWs c = true) ∧ l = ws ++ skipWs l := by
  induction l with
  | nil => exact ⟨[], by simp, rfl⟩
  | cons c cs ih =>
    by_cases hc : pyWs c = true
    · obtain ⟨ws, hws, heq⟩ := ih
      refine ⟨c :: ws, ?_, ?_⟩
      · intro d hd
        rcases List.mem_cons.mp hd with rfl | hd
        · exact hc
        · exact hws d hd
      · simp [skipWs, hc]
        exact heq
    · refine ⟨[], by simp, ?_⟩
      simp [skipWs, Bool.eq_false_iff.mpr hc]

/-- Every forbidden keyword is nonempty and starts with a non-whitespace
character (so the greedy `\s*` skip never eats into a keyword). -/
theorem forbidden_head_not_ws :
    ∀ kw ∈ forbiddenKeywords,
      (match kw.toList with
       | [] => false
       | c :: _ => !pyWs c) = true := by
  decide

theorem matchAfterSemi_iff (l : List Char) :
    matchAfterSemi l = true ↔
      ∃ ws kw post, kw ∈ forbiddenKeywords ∧
        (∀ c ∈ ws, pyWs c = true) ∧
        boundaryOk post = true ∧
        l = ws ++ kw.toList ++ post := by
  constructor
  · intro h
    obtain ⟨kw, hkw, hmatch⟩ := List.any_eq_true.mp h
    obtain ⟨post, hpost, hb⟩ := (kwBoundaryAt_iff kw.toList (skipWs l)).mp hmatch
    obtain ⟨ws, hws, hdec⟩ := skipWs_decomposition l
    exact ⟨ws, kw, post, hkw, hws, hb, by rw [hdec, hpost, List.append_assoc]⟩
  · rintro ⟨ws, kw, post, hkw, hws, hb, rfl⟩
    refine List.any_eq_true.mpr ⟨kw, hkw, ?_⟩
    have hskip : skipWs (ws ++ (kw.toList ++ post)) = kw.toList ++ post := by
      rw [skipWs_append ws _ hws]
      have hhead := forbidden_head_not_ws kw hkw
      cases hkl : kw.toList with
      | nil => rw [hkl] at hhead; simp at hhead
      | cons c cs =>
        rw [hkl] at hhead
        have hc : pyWs c = false := by simpa using hhead
        rw [List.cons_append, skipWs_cons_of_not_ws c _ hc]
    rw [List.append_assoc, hskip]
    exact (kwBoundaryAt_iff kw.toList _).mpr ⟨post, rfl, hb⟩

theorem chainedSearch_iff (l : List Char) :
    chainedSearch l = true ↔ hasChainedPattern l := by
  induction l with
  | nil =>
    simp only [chainedSearch, hasChainedPattern]
    constructor
    · intro h; exact absurd h (by simp)
    · rintro ⟨pre, ws, kw, post, _, _, _, heq⟩
      exact absurd heq.symm (by simp)
  | cons c cs ih =>
    simp only [chainedSearch, Bool.or_eq_true, Bool.and_eq_true, beq_iff_eq]
    constructor
    · rintro (⟨rfl, h⟩ | h)
      · obtain ⟨ws, kw, post, hkw, hws, hb, rfl⟩ := (matchAfterSemi_iff cs).mp h
        exact ⟨[], ws, kw, post, hkw, hws, hb, by simp⟩
      · obtain ⟨pre, ws, kw, post, hkw, hws, hb, rfl⟩ := ih.mp h
        exact ⟨c :: pre, ws, kw, post, hkw, hws, hb, by simp⟩
    · rintro ⟨pre, ws, kw, post, hkw, hws, hb, heq⟩
      cases pre with
      | nil =>
        simp only [List.nil_append, List.singleton_append, List.cons_append,
          List.append_assoc] at heq
        obtain ⟨rfl, rfl⟩ := List.cons.inj heq
        exact Or.inl ⟨rfl, (matchAfterSemi_iff _).mpr ⟨ws, kw, post, hkw, hws, hb, by
          rw [List.append_assoc]⟩⟩
      | cons p ps =>
        simp only [List.cons_append, List.append_assoc] at heq
        obtain ⟨rfl, rfl⟩ := List.cons.inj heq
        exact Or.inr (ih.mpr ⟨ps, ws, kw, post, hkw, hws, hb, by
          simp [List.append_assoc]⟩)

/-- C2: the validator accepts exactly the queries whose stripped, uppercased
text starts with SELECT, WITH, PRAGMA or EXPLAIN and contains no
semicolon-chained forbidden keyword; each rejection carries the matching
reason (only-read-only for a bad start, chained-destructive otherwise). -/
theorem validate_sql_safety_characterization (query : String) :
    (validate_sql_safety query = none ↔
      ((∃ kw ∈ allowedStarts, kw.toList <+: normalizeQuery query) ∧
        ¬ hasChainedPattern (normalizeQuery query)))
    ∧ ((¬ ∃ kw ∈ allowedStarts, kw.toList <+: normalizeQuery query) →
        validate_sql_safety query = some onlyReadOnlyMsg)
    ∧ ((∃ kw ∈ allowedStarts, kw.toList <+: normalizeQuery query) →
        hasChainedPattern (normalizeQuery query) →
        validate_sql_safety query = some chainedMsg) := by
  have hany : (allowedStarts.any fun kw => kw.toList.isPrefixOf (normalizeQuery query)) = true ↔
      ∃ kw ∈ allowedStarts, kw.toList <+: normalizeQuery query := by
    rw [List.any_eq_true]
    constructor
    · rintro ⟨kw, hkw, hp⟩
      exact ⟨kw, hkw, List.isPrefixOf_iff_prefix.mp hp⟩
    · rintro ⟨kw, hkw, hp⟩
      exact ⟨kw, hkw, List.isPrefixOf_iff_prefix.mpr hp⟩
  cases hA : (allowedStarts.any fun kw => kw.toList.isPrefixOf (normalizeQuery query)) with
  | false =>
    have hstart : ¬ ∃ kw ∈ allowedStarts, kw.toList <+: normalizeQuery query := by
      intro hex
      rw [hany.mpr hex] at hA
      exact Bool.noConfusion hA
    have hval : validate_sql_safety query = some onlyReadOnlyMsg := by
      unfold validate_sql_safety
      rw [hA]
      rfl
    refine ⟨?_, fun _ => hval, fun h _ => (hstart h).elim⟩
    rw [hval]
    constructor
    · intro h; exact (Option.some_ne_none _ h).elim
    · rintro ⟨h, _⟩; exact (hstart h).elim
  | true =>
    have hstart : ∃ kw ∈ allowedStarts, kw.toList <+: normalizeQuery query := hany.mp hA
    cases hC : chainedSearch (normalizeQuery query) with
    | false =>
      have hchain : ¬ hasChainedPattern (normalizeQuery query) := by
        intro hc
        rw [(chainedSearch_iff _).mpr hc] at hC
        exact Bool.noConfusion hC
      have hval : validate_sql_safety query = none := by
        unfold validate_sql_safety
        rw [hA, hC]
        rfl
      exact ⟨⟨fun _ => ⟨hstart, hchain⟩, fun _ => hval⟩,
        fun h => (h hstart).elim, fun _ hc => (hchain hc).elim⟩
    | true =>
      have hchain : hasChainedPattern (normalizeQuery query) :=
        (chainedSearch_iff _).mp hC
      have hval : validate_sql_safety query = some chainedMsg := by
        unfold validate_sql_safety
        rw [hA, hC]
        rfl
      refine ⟨?_, fun h => (h hstart).elim, fun _ _ => hval⟩
      rw [hval]
      constructor
      · intro h; exact (Option.some_ne_none _ h).elim
      · rintro ⟨_, hc⟩; exact (hc hchain).elim

/-- Witness for C2 at concrete inputs: a non-read-only statement is rejected
with the only-read-only reason, and a chained destructive statement is
rejected with the chained reason. -/
theorem validate_sql_safety_characterization_witness :
    validate_sql_safety "DROP TABLE users" = some onlyReadOnlyMsg ∧
    validate_sql_safety "SELECT * FROM t; DROP TABLE t" = some chainedMsg := by
  refine ⟨(validate_sql_safety_characterization "DROP TABLE users").2.1 (by decide), ?_⟩
  refine (validate_sql_safety_characterization "SELECT * FROM t; DROP TABLE t").2.2
    (by decide) ?_
  exact ⟨"SELECT * FROM T".toList, [' '], "DROP", " TABLE T".toList, by decide, by decide,
    by decide, by decide⟩

/-! ## C10: lexical over-rejection of a single-statement SELECT -/

/-- The single-quote character, built by code point to keep the sources
apostrophe-free. -/
def sqChar : Char := Char.ofNat 39

/-- Number of semicolons occurring outside single-quoted SQL string literals
(a toggle scan; the flag tracks being inside a literal). -/
def semisOutsideQuotes : Bool → List Char → Nat
  | _, [] => 0
  | inStr, c :: cs =>
    if c == sqChar then semisOutsideQuotes (!inStr) cs
    else if c == ';' && !inStr then semisOutsideQuotes inStr cs + 1
    else semisOutsideQuotes inStr cs

/-- A single read-only SELECT whose quoted string literal contains a
semicolon followed by the word DROP. -/
def literalSpannedQuery : String :=
  "SELECT " ++ String.singleton sqChar ++ "; DROP" ++ String.singleton sqChar ++ " AS x"

/-- C10: the chained-command scan is purely lexical: this query is a single
statement (every semicolon lies inside a quoted literal) starting with
SELECT, yet the validator rejects it as a chained destructive command. -/
theorem validator_over_rejects_literal_query :
    validate_sql_safety literalSpannedQuery = some chainedMsg ∧
    semisOutsideQuotes false literalSpannedQuery.toList = 0 ∧
    "SELECT".toList <+: normalizeQuery literalSpannedQuery := by
  decide

/-! ## Execution wrapper (`src/database.py`, `run_sql_query`) -/

/-- A single result cell: SQLite values are numbers, strings or NULL. -/
inductive CellValue where
  | num (x : Int)
  | text (s : String)
  | null
deriving DecidableEq, Repr

/-- One result row as returned by `execute_query_sqlite` /
`execute_query_mysql`: a column-name → value mapping in driver column
order (`dict(zip(columns, row))`). -/
abbrev DbRow := List (String × CellValue)

/-- Observable connection events of one `run_sql_query` call. -/
inductive DbEvent where
  | connOpened
  | connClosed
deriving DecidableEq, Repr

/-- A Python exception as caught by the `except` clauses of `run_sql_query`:
`ConnectionError` is reported as a connection error, anything else falls to
the generic handler. -/
inductive PyExc where
  | connErr (msg : String)
  | otherExc (msg : String)
deriving DecidableEq, Repr

/-- The message produced by the matching `except` clause of `run_sql_query`. -/
def excMessage : PyExc → String
  | .connErr m => "Database connection error: " ++ m
  | .otherExc m => "Database error: " ++ m

/-- The behaviour of the configured database driver during one call:
whether `get_db_connection()` raises, whether `conn.cursor()` raises, and
the value returned by `execute_query_sqlite` / `execute_query_mysql`
(which is total: it catches every exception internally and returns a
results-or-error pair, never raising). -/
structure DbBackend where
  connectExc : Option PyExc
  cursorExc : Option PyExc
  execRows : Option (List DbRow)
  execErr : Option String
deriving DecidableEq, Repr

/-- `run_sql_query` from `src/database.py`, with the connection lifecycle
made observable as an event trace.  The body is `try/except` (no
`finally`): `conn.close()` is reached only on the straight-line path, so an
exception raised after the connection is opened (modelled by `cursorExc`)
jumps to an `except` clause that returns without closing. -/
def run_sql_query (b : DbBackend) (query : String) :
    (Option (List DbRow) × Option String) × List DbEvent :=
  match validate_sql_safety query with
  | some err => ((none, some err), [])
  | none =>
    match b.connectExc with
    | some e => ((none, some (excMessage e)), [])
    | none =>
      match b.cursorExc with
      | some e => ((none, some (excMessage e)), [DbEvent.connOpened])
      | none => ((b.execRows, b.execErr), [DbEvent.connOpened, DbEvent.connClosed])

/-- C1: when the validator rejects a query, `run_sql_query` returns the
validator reason as the error and the connection-event trace is empty —
no connection is ever opened for an unsafe query. -/
theorem run_sql_query_rejects_without_connection
    (b : DbBackend) (query reason : String)
    (h : validate_sql_safety query = some reason) :
    (run_sql_query b query).1 = (none, some reason) ∧
    DbEvent.connOpened ∉ (run_sql_query b query).2 := by
  unfold run_sql_query
  rw [h]
  exact ⟨rfl, by simp⟩

/-- Witness for C1 at a concrete rejected query and backend. -/
theorem run_sql_query_rejects_without_connection_witness :
    (run_sql_query ⟨none, none, some [], none⟩ "DROP TABLE users").1
      = (none, some onlyReadOnlyMsg) ∧
    DbEvent.connOpened ∉ (run_sql_query ⟨none, none, some [], none⟩ "DROP TABLE users").2 :=
  run_sql_query_rejects_without_connection ⟨none, none, some [], none⟩
    "DROP TABLE users" onlyReadOnlyMsg (by decide)

/-- C3 counterexample: for the safe query SELECT 1, a backend whose cursor
creation raises makes `run_sql_query` return after opening the connection
but without ever closing it — the close is not unconditional. -/
theorem run_sql_query_leaks_connection_on_cursor_failure :
    (run_sql_query ⟨none, some (PyExc.otherExc "cursor failure"), none, none⟩
        "SELECT 1").2 = [DbEvent.connOpened] ∧
    DbEvent.connClosed ∉
      (run_sql_query ⟨none, some (PyExc.otherExc "cursor failure"), none, none⟩
        "SELECT 1").2 := by
  decide

/-- C3 amended: for a safe query, when neither connecting nor cursor
creation raises, `run_sql_query` opens one connection and closes it before
returning, on the success path and on the driver-error path alike (driver
failures are returned by the execute helpers as error values, not raised). -/
theorem run_sql_query_closes_when_no_unexpected_exception
    (b : DbBackend) (query : String)
    (hsafe : validate_sql_safety query = none)
    (hconn : b.connectExc = none) (hcur : b.cursorExc = none) :
    run_sql_query b query
      = ((b.execRows, b.execErr), [DbEvent.connOpened, DbEvent.connClosed]) := by
  unfold run_sql_query
  rw [hsafe, hconn, hcur]

/-- Witness for the amended C3: a concrete safe query on a backend that
reports a driver error still opens and closes the connection. -/
theorem run_sql_query_closes_when_no_unexpected_exception_witness :
    run_sql_query ⟨none, none, none, some "no such table: t"⟩ "SELECT x FROM t"
      = ((none, some "no such table: t"), [DbEvent.connOpened, DbEvent.connClosed]) :=
  run_sql_query_closes_when_no_unexpected_exception
    ⟨none, none, none, some "no such table: t"⟩ "SELECT x FROM t" (by decide) rfl rfl

/-! ## SQL extraction (`src/rag.py`, `extract_sql`) -/

/-- First occurrence of the literal pattern `pat` in a character list:
`some (before, after)` splits around the match, `none` when absent
(the scan `re.search` performs for a literal fragment). -/
def splitAtSub (pat : List Char) : List Char → Option (List Char × List Char)
  | [] => if pat.isPrefixOf ([] : List Char) then some ([], []) else none
  | c :: cs =>
    if pat.isPrefixOf (c :: cs) then some ([], (c :: cs).drop pat.length)
    else
      match splitAtSub pat cs with
      | some (pre, rest) => some (c :: pre, rest)
      | none => none

/-- The regex ```` ```sql\s*(.*?)``` ```` with DOTALL: content of the first
`sql`-tagged fenced block, up to the first closing marker after it.
(The lazy `(.*?)` group is returned before stripping; the greedy `\s*`
makes no observable difference because the caller strips the group.) -/
def fenceContent (text : String) : Option String :=
  match splitAtSub "```sql".toList text.toList with
  | none => none
  | some (_, rest) =>
    match splitAtSub "```".toList rest with
    | none => none
    | some (inner, _) => some (String.mk inner)

/-- `extract_sql` from `src/rag.py`: fenced block first, then the trimmed
text itself (the SELECT/WITH check and the final fallback both return the
stripped text). -/
def extract_sql (text : String) : String :=
  match fenceContent text with
  | some inner => pyStripStr inner
  | none =>
    if "SELECT".toList.isPrefixOf (pyUpper (pyStripStr text).toList) ||
        "WITH".toList.isPrefixOf (pyUpper (pyStripStr text).toList) then
      pyStripStr text
    else pyStripStr text

/-- C4: `extract_sql` is total and follows the documented fallback order:
the stripped content of the first fenced `sql` block when one closes,
otherwise the stripped input itself — both when it starts with SELECT/WITH
(case-insensitive) and in the verbatim passthrough case, so extraction
never fails. -/
theorem extract_sql_fallback_order (text : String) :
    (∀ inner, fenceContent text = some inner → extract_sql text = pyStripStr inner) ∧
    (fenceContent text = none → extract_sql text = pyStripStr text) := by
  constructor
  · intro inner h
    unfold extract_sql
    rw [h]
  · intro h
    unfold extract_sql
    rw [h]
    exact ite_self _

/-- Witness for C4: a fenced response yields the trimmed inner SQL, and a
plain text response degrades to the trimmed passthrough. -/
theorem extract_sql_fallback_order_witness :
    extract_sql "Sure! ```sql
SELECT 1;
``` done" = pyStripStr "
SELECT 1;
" ∧ extract_sql "  no sql here " = pyStripStr "  no sql here " :=
  ⟨(extract_sql_fallback_order _).1 "
SELECT 1;
" (by decide), (extract_sql_fallback_order _).2 (by decide)⟩

/-! ## Query log (`src/logger.py`) -/

/-- One entry of `query_logs.json`, as written by `log_query`. -/
structure LogEntry where
  timestamp : String
  question : String
  sql_query : String
  success : Bool
  error_message : Option String
deriving DecidableEq, Repr

/-- The durable store behind `LOG_FILE`: missing file, unparseable JSON,
unreadable file, or a stored list of entries. -/
inductive LogStore where
  | absent
  | corrupt
  | unreadable
  | stored (entries : List LogEntry)
deriving DecidableEq, Repr

/-- `get_logs` from `src/logger.py`: total over every store state; the
missing-file, JSON-decode-failure and other-read-failure paths all return
the empty list. -/
def get_logs : LogStore → List LogEntry
  | .absent => []
  | .corrupt => []
  | .unreadable => []
  | .stored es => es

/-- `log_query` from `src/logger.py`: builds the timestamped entry (the
clock is passed explicitly), loads the whole log with `get_logs`, appends,
and rewrites the entire store. -/
def log_query (st : LogStore) (timestamp question sql_query : String)
    (success : Bool) (error_message : Option String) : LogStore :=
  .stored (get_logs st ++ [⟨timestamp, question, sql_query, success, error_message⟩])

/-- `clear_logs` from `src/logger.py`: overwrites the store with `[]`. -/
def clear_logs (_st : LogStore) : LogStore := .stored []

/-- C5: appending an entry and reading the log back yields exactly the prior
stored sequence with the new entry as the last element, order preserved. -/
theorem log_query_then_get_logs (st : LogStore) (ts q sql : String)
    (ok : Bool) (err : Option String) :
    get_logs (log_query st ts q sql ok err) = get_logs st ++ [⟨ts, q, sql, ok, err⟩] :=
  rfl

/-- C6: `get_logs` is total and returns the stored sequence, with the empty
sequence for an absent, corrupt or unreadable store. -/
theorem get_logs_total_with_defaults :
    get_logs .absent = [] ∧ get_logs .corrupt = [] ∧ get_logs .unreadable = [] ∧
    ∀ es, get_logs (.stored es) = es :=
  ⟨rfl, rfl, rfl, fun _ => rfl⟩

/-! ## Visualization advisor (`src/visualization.py`) -/

/-- A result set as a pandas DataFrame built from the result rows: named
columns and rows of cells in column order. -/
structure DataFrame where
  columns : List String
  rows : List (List CellValue)
deriving DecidableEq, Repr

/-- Cell is a number (pandas numeric dtype element). -/
def isNumCell : CellValue → Bool
  | .num _ => true
  | _ => false

/-- Cell is a NULL (pandas NaN inside an otherwise numeric column). -/
def isNullCell : CellValue → Bool
  | .null => true
  | _ => false

/-- The cells of column `j`. -/
def columnCells (df : DataFrame) (j : Nat) : List CellValue :=
  df.rows.filterMap fun r => r.get? j

/-- Column `j` gets a numeric dtype: at least one number, and every cell a
number or NULL (a column of only NULLs or with any non-number is dtype
object). -/
def isNumericColumn (df : DataFrame) (j : Nat) : Bool :=
  (columnCells df j).any isNumCell &&
    (columnCells df j).all fun c => isNumCell c || isNullCell c

/-- `df.select_dtypes(include=["number"]).columns`, in column order. -/
def numericColumns (df : DataFrame) : List String :=
  (df.columns.enum.filter fun p => isNumericColumn df p.1).map fun p => p.2

/-- The chart proposal parsed from the collaborator's JSON (`config`), with
`dict.get` semantics for possibly-missing keys. -/
structure ChartConfig where
  chart_type : Option String
  x_axis : Option String
  y_axis : Option String
  title : Option String
deriving DecidableEq, Repr

/-- `analyze_data_for_chart` from `src/visualization.py`.  The external
text-generation call, the fenced-JSON extraction and `json.loads` are one
boundary, modelled by `llmProposal`: `none` stands for every path the code
maps to `None` (no JSON object found, a parse error, or a raised
exception), `some cfg` for a successfully parsed proposal.  The function
skips when the frame is empty or has a single row with fewer than two
numeric columns, and discards a proposal whose `chart_type` is `none` —
it performs no validation of the proposed axis column names. -/
def analyze_data_for_chart (question : String) (df : DataFrame)
    (llmProposal : Option ChartConfig) : Option ChartConfig :=
  if df.rows.length = 0 ∨ (df.rows.length < 2 ∧ (numericColumns df).length < 2) then
    none
  else
    match llmProposal with
    | none => none
    | some cfg => if cfg.chart_type == some "none" then none else some cfg

/-- The value of `row[col]` given the frame's column names. -/
def rowValue (columns : List String) (row : List CellValue) (colName : String) : CellValue :=
  match (columns.zip row).find? fun p => p.1 == colName with
  | some p => p.2
  | none => CellValue.null

/-- The wide-single-row pivot of `render_chart`: numeric column names become
the `Metric` category column, the first row's values the `Value` column. -/
def pivotWide (df : DataFrame) : DataFrame :=
  { columns := ["Metric", "Value"],
    rows := (numericColumns df).map fun name =>
      [CellValue.text name, rowValue df.columns (df.rows.headD []) name] }

/-- A constructed Plotly figure, recorded as its parameters. -/
structure RenderedChart where
  kind : String
  x : String
  y : Option String
  title : String
  data : DataFrame
deriving DecidableEq, Repr

/-- The column check and chart-type dispatch of `render_chart`: reject when
`x` is absent from the columns (a `None` x is never a member), or when `y`
is truthy and absent; then build the figure for the four known chart
types. -/
def renderFigure (df : DataFrame) (chartType : Option String) (x y : Option String)
    (title : String) : Option RenderedChart :=
  match x with
  | none => none
  | some xs =>
    if !(df.columns.contains xs) then none
    else if (match y with
             | none => false
             | some ys => ys != "" && !(df.columns.contains ys)) then none
    else
      match chartType with
      | none => none
      | some ct =>
        if ct == "bar" || ct == "line" || ct == "pie" || ct == "scatter" then
          some ⟨ct, xs, y, title, df⟩
        else none

/-- `render_chart` from `src/visualization.py`: on the reserved marker axes
for a single-row frame it pivots the frame and renders `Metric`/`Value`;
otherwise it renders the proposed axes after the column check. -/
def render_chart (df : DataFrame) (cfg : ChartConfig) : Option RenderedChart :=
  if cfg.x_axis == some "__columns__" && cfg.y_axis == some "__values__"
      && df.rows.length == 1 then
    renderFigure (pivotWide df) cfg.chart_type (some "Metric") (some "Value")
      (cfg.title.getD "Chart")
  else
    renderFigure df cfg.chart_type cfg.x_axis cfg.y_axis (cfg.title.getD "Chart")

/-- C7: the advisor returns none whenever the result has fewer than two rows
and fewer than two numeric columns, whatever the question and whatever the
collaborator would propose. -/
theorem analyze_skips_small_results (question : String) (df : DataFrame)
    (llmProposal : Option ChartConfig)
    (hrows : df.rows.length < 2) (hnum : (numericColumns df).length < 2) :
    analyze_data_for_chart question df llmProposal = none := by
  unfold analyze_data_for_chart
  rcases Nat.eq_zero_or_pos df.rows.length with h0 | hpos
  · rw [if_pos (Or.inl h0)]
  · rw [if_pos (Or.inr ⟨hrows, hnum⟩)]

/-- Witness for C7: a single-row result with exactly one numeric column is
skipped even when the collaborator would propose a chart. -/
theorem analyze_skips_small_results_witness :
    analyze_data_for_chart "total sales"
      ⟨["name", "sales"], [[CellValue.text "acme", CellValue.num 5]]⟩
      (some ⟨some "bar", some "name", some "sales", some "t"⟩) = none ∧
    (numericColumns ⟨["name", "sales"], [[CellValue.text "acme", CellValue.num 5]]⟩).length
      = 1 :=
  ⟨analyze_skips_small_results "total sales"
      ⟨["name", "sales"], [[CellValue.text "acme", CellValue.num 5]]⟩
      (some ⟨some "bar", some "name", some "sales", some "t"⟩)
      (by decide) (by decide), by decide⟩

/-- C8 counterexample: the advisor passes a proposal through without
checking its axis columns — on a two-row frame with columns a, b it
returns a proposal whose x-axis names the absent column zzz. -/
theorem analyze_returns_absent_axis_columns :
    analyze_data_for_chart "q"
      ⟨["a", "b"], [[CellValue.num 1, CellValue.num 2], [CellValue.num 3, CellValue.num 4]]⟩
      (some ⟨some "bar", some "zzz", some "b", some "t"⟩)
      = some ⟨some "bar", some "zzz", some "b", some "t"⟩ ∧
    "zzz" ∉ (["a", "b"] : List String) := by
  decide

/-- C8 amended: it is the renderer, not the advisor, that discards a
proposal whose x-axis column is absent from the frame (outside the
reserved-marker case), and the renderer also performs the wide-single-row
pivot itself, rendering the pivoted Metric/Value frame. -/
theorem render_chart_validates_axes_and_pivots :
    (∀ df cfg xs, cfg.x_axis = some xs →
      ¬(cfg.x_axis = some "__columns__" ∧ cfg.y_axis = some "__values__" ∧
          df.rows.length = 1) →
      xs ∉ df.columns → render_chart df cfg = none) ∧
    (∀ df cfg, df.rows.length = 1 →
      cfg.x_axis = some "__columns__" → cfg.y_axis = some "__values__" →
      cfg.chart_type = some "bar" →
      render_chart df cfg
        = some ⟨"bar", "Metric", some "Value", cfg.title.getD "Chart", pivotWide df⟩) := by
  constructor
  · intro df cfg xs hx hnp hmem
    have hcond : (cfg.x_axis == some "__columns__" && cfg.y_axis == some "__values__"
        && df.rows.length == 1) = false := by
      cases hb : (cfg.x_axis == some "__columns__" && cfg.y_axis == some "__values__"
          && df.rows.length == 1) with
      | false => rfl
      | true =>
        rw [Bool.and_eq_true, Bool.and_eq_true] at hb
        exact absurd ⟨eq_of_beq hb.1.1, eq_of_beq hb.1.2, eq_of_beq hb.2⟩ hnp
    have hc : df.columns.contains xs = false := by
      cases hb : df.columns.contains xs with
      | false => rfl
      | true =>
        obtain ⟨a, ha, hab⟩ := List.contains_iff_exists_mem_beq.mp hb
        exact absurd (by rw [eq_of_beq hab]; exact ha) hmem
    unfold render_chart
    rw [hcond]
    simp only [Bool.false_eq_true, if_false]
    rw [hx]
    simp only [renderFigure]
    rw [hc]
    rfl
  · intro df cfg h1 hx hy hct
    unfold render_chart
    rw [hx, hy, h1, hct]
    rfl

/-- Witness for the amended C8: a concrete absent-axis proposal is rejected
by the renderer, and a concrete single-row wide frame is pivoted by the
renderer into the Metric/Value frame. -/
theorem render_chart_validates_axes_and_pivots_witness :
    render_chart ⟨["a", "b"], [[CellValue.num 1, CellValue.num 2],
        [CellValue.num 3, CellValue.num 4]]⟩
      ⟨some "bar", some "zzz", some "b", some "t"⟩ = none ∧
    render_chart ⟨["cur", "prev"], [[CellValue.num 5, CellValue.num 3]]⟩
      ⟨some "bar", some "__columns__", some "__values__", some "t"⟩
      = some ⟨"bar", "Metric", some "Value", "t",
          pivotWide ⟨["cur", "prev"], [[CellValue.num 5, CellValue.num 3]]⟩⟩ :=
  ⟨render_chart_validates_axes_and_pivots.1
      ⟨["a", "b"], [[CellValue.num 1, CellValue.num 2], [CellValue.num 3, CellValue.num 4]]⟩
      ⟨some "bar", some "zzz", some "b", some "t"⟩ "zzz" rfl (by decide) (by decide),
    render_chart_validates_axes_and_pivots.2
      ⟨["cur", "prev"], [[CellValue.num 5, CellValue.num 3]]⟩
      ⟨some "bar", some "__columns__", some "__values__", some "t"⟩ rfl rfl rfl rfl⟩

/-! ## Conversation reformulator (`src/rag.py`) -/

/-- One turn of the chat history (the dict form
role/content/optional sql handled by `get_chat_history_str`). -/
structure ChatTurn where
  role : String
  content : String
  sql : Option String
deriving DecidableEq, Repr

/-- `str.capitalize()`: first character uppercased, the rest lowercased. -/
def pyCapitalize (s : String) : String :=
  match s.toList with
  | [] => ""
  | c :: cs => String.mk (asciiUpper c :: cs.map asciiLower)

/-- One formatted history line: `Role: content`, plus the
`(Context SQL: ...)` suffix when the turn carries a truthy sql string. -/
def formatChatTurn (t : ChatTurn) : String :=
  pyCapitalize t.role ++ ": " ++ t.content ++
    (match t.sql with
     | some s => if s != "" then "\n(Context SQL: " ++ s ++ ")" else ""
     | none => "")

/-- `get_chat_history_str` from `src/rag.py`: the last six turns formatted
and joined with newlines, or the fixed no-history text. -/
def get_chat_history_str (chat_history : List ChatTurn) : String :=
  if chat_history.isEmpty then "No history."
  else
    String.intercalate "\n"
      ((chat_history.drop (chat_history.length - 6)).map formatChatTurn)

/-- The comparison keyword table of `detect_comparison_keywords`, in the
source's insertion order (Python dict iteration order). -/
def comparisonKeywords : List (String × String) :=
  [("vs", "versus"), ("versus", "versus"), ("compared to", "comparison"),
   ("compared with", "comparison"), ("difference", "difference"), ("growth", "growth"),
   ("change", "change"), ("increased", "trend"), ("decreased", "trend"),
   ("higher", "comparison"), ("lower", "comparison"), ("improvement", "trend"),
   ("decline", "trend"), ("quarter", "time_period"), ("month", "time_period"),
   ("year", "time_period"), ("last", "time_reference"), ("previous", "time_reference")]

/-- `detect_comparison_keywords` from `src/rag.py`: first keyword contained
in the lowercased question wins; returns the comparison flag and type. -/
def detect_comparison_keywords (question : String) : Bool × Option String :=
  match comparisonKeywords.find? fun kv =>
      (splitAtSub kv.1.toList (pyLower question.toList)).isSome with
  | some kv => (true, some kv.2)
  | none => (false, none)

/-- `reformulate_question` from `src/rag.py`, with the external
text-generation collaborator as an oracle receiving exactly the inputs the
prompt template interpolates: the formatted history, the raw question, and
the comparison type when one was detected (the comparison hint block).
The second component counts collaborator invocations.  On a non-empty
history the collaborator's response is returned stripped. -/
def reformulate_question (question : String) (chat_history : List ChatTurn)
    (llm : String → String → Option String → String) : String × Nat :=
  if chat_history.isEmpty then (question, 0)
  else
    (pyStripStr
      (llm (get_chat_history_str chat_history) question
        (detect_comparison_keywords question).2), 1)

/-- C9: with an empty history, reformulation returns the question exactly
unchanged and performs zero collaborator calls, whatever the collaborator
would answer. -/
theorem reformulate_question_empty_history (question : String)
    (llm : String → String → Option String → String) :
    reformulate_question question [] llm = (question, 0) :=
  rfl
